import Mathlib

/-!
Shallow embedding of the core of the `inventree-python` client library:
the transport layer (`inventree/api.py`: `InvenTreeAPI.request`, `testServer`,
`connect`, `downloadFile`) and the model-proxy layer (`inventree/base.py`:
`InventreeObject.__init__`, `list`, `create`, `save`, `StatusMixin._statusupdate`).

Modelling conventions:
- Python scalar values are modelled by `Val` (null / bool / int / str); JSON
  records (Python dicts with scalar values) by `Record`, an association list.
- Raised Python exceptions are modelled by the `PyErr` inductive; functions
  that can raise return `Except PyErr _`.
- Network and filesystem effects are modelled by explicit oracle functions
  passed as parameters; the list of performed calls is returned so that
  "no network call is made" style properties are statable.
- The embeddings specialize `checkApiVersion` to the default
  `MIN_API_VERSION = MAX_API_VERSION = None` of the base class, for which the
  check is a no-op, and assume a connected transport (so `request` does not
  trigger its lazy `connect`).
-/

/-- Python `s.strip()` on a character list: remove leading and trailing
whitespace. -/
def trimChars (l : List Char) : List Char :=
  ((l.dropWhile Char.isWhitespace).reverse.dropWhile Char.isWhitespace).reverse

/-- Python `s.strip()`. -/
def strTrim (s : String) : String :=
  String.mk (trimChars s.data)

/-- Python `s.upper()` (ASCII, as used on HTTP method names). -/
def strUpper (s : String) : String :=
  String.mk (s.data.map Char.toUpper)

/-- Python `s.lower()` (ASCII, as used on HTTP method names). -/
def strLower (s : String) : String :=
  String.mk (s.data.map Char.toLower)

/-- Python `s.startswith(p)`. -/
def strStartsWith (s p : String) : Bool :=
  p.data.isPrefixOf s.data

/-- Python `s.endswith(p)`. -/
def strEndsWith (s p : String) : Bool :=
  p.data.reverse.isPrefixOf s.data.reverse

/-- Python `s[1:]`. -/
def strDropOne (s : String) : String :=
  String.mk (s.data.drop 1)

/-- Python scalar value (as appearing in JSON payloads and `pk` arguments). -/
inductive Val where
  | vnull
  | vbool (b : Bool)
  | vint (n : Int)
  | vstr (s : String)
deriving DecidableEq, Repr

/-- Python `str()` of a scalar value. -/
def pyStr : Val → String
  | .vnull => "None"
  | .vbool b => if b then "True" else "False"
  | .vint n => toString n
  | .vstr s => s

/-- Python `str()` of an optional value (`None` when absent). -/
def pyStrOpt : Option Val → String
  | none => "None"
  | some v => pyStr v

/-- Decimal digit value of a character, `none` for non-digits. -/
def digitVal (c : Char) : Option Nat :=
  if c.isDigit then some (c.toNat - 48) else none

/-- Continue parsing a decimal literal after at least one digit has been read.
Python `int()` allows single underscores between digits. -/
def parseDigitsCore : Nat → List Char → Option Nat
  | acc, [] => some acc
  | acc, '_' :: c :: rest =>
      match digitVal c with
      | some d => parseDigitsCore (acc * 10 + d) rest
      | none => none
  | acc, c :: rest =>
      match digitVal c with
      | some d => parseDigitsCore (acc * 10 + d) rest
      | none => none

/-- Parse a nonempty decimal digit run (single `_` separators allowed,
never leading or trailing), as accepted by Python `int()`. -/
def parseUDigits : List Char → Option Nat
  | [] => none
  | c :: rest =>
      match digitVal c with
      | some d => parseDigitsCore d rest
      | none => none

/-- Python `int(s)` applied to a string: strips surrounding whitespace,
accepts an optional sign followed by decimal digits; `none` models the
`ValueError` raised on any other input. -/
def pyIntOfString (s : String) : Option Int :=
  match trimChars s.data with
  | '+' :: rest => (parseUDigits rest).map Int.ofNat
  | '-' :: rest => (parseUDigits rest).map (fun n => -(Int.ofNat n))
  | l => (parseUDigits l).map Int.ofNat

/-- A JSON object / Python dict with scalar values, as an association list
(keys unique, insertion order preserved, mirroring Python dict semantics). -/
abbrev Record := List (String × Val)

/-- Python `d.get(k)`: first value bound to `k`, if any. -/
def getKey (r : Record) (k : String) : Option Val :=
  match r.find? (fun p => p.1 = k) with
  | some p => some p.2
  | none => none

/-- Python `k in d.keys()`. -/
def hasKey (r : Record) (k : String) : Bool :=
  r.any (fun p => p.1 = k)

/-- Python `d.pop(k)`: the dict with the binding for `k` removed. -/
def eraseKey (r : Record) (k : String) : Record :=
  r.filter (fun p => p.1 ≠ k)

/-- Collapse an explicit JSON `null` into Python `None` (both are `None`
for the purposes of an `x is not None` test). -/
def denull : Option Val → Option Val
  | some .vnull => none
  | o => o

/-- Python exceptions raised by the modelled code paths. -/
inductive PyErr where
  | typeError (msg : String)
  | valueError (msg : String)
  | fileExistsError (msg : String)
  | requestException (msg : String)
  | connectionRefusedError (msg : String)
  | connectionError (msg : String)
  | timeoutError (msg : String)
deriving DecidableEq, Repr

/-- `True` exactly on successful `Except` results. -/
def isOkE {ε α : Type} : Except ε α → Bool
  | .ok _ => true
  | .error _ => false

/-- Decidable equality for `Except`, so concrete outcomes can be checked by
`decide`. -/
def exceptDecEq {ε α : Type} [DecidableEq ε] [DecidableEq α] :
    (a b : Except ε α) → Decidable (a = b)
  | .ok a, .ok b =>
      if h : a = b then .isTrue (by rw [h])
      else .isFalse (by intro hh; cases hh; exact h rfl)
  | .ok _, .error _ => .isFalse (by intro h; cases h)
  | .error _, .ok _ => .isFalse (by intro h; cases h)
  | .error a, .error b =>
      if h : a = b then .isTrue (by rw [h])
      else .isFalse (by intro hh; cases hh; exact h rfl)

instance {ε α : Type} [DecidableEq ε] [DecidableEq α] : DecidableEq (Except ε α) :=
  exceptDecEq

/-- A network / transport call performed by a modelled operation, recorded
so that frame properties ("no network call is made") are statable. -/
inductive ApiCall where
  | getC (url : String)
  | postC (url : String) (payload : Record)
  | patchC (url : String) (payload : Record)
  | putC (url : String) (payload : Record)
deriving DecidableEq, Repr

/-- A materialized `InventreeObject`: its instance URL (`self._url`) and its
cached field mapping (`self._data`). -/
structure Entity where
  url : String
  data : Record
deriving DecidableEq, Repr

/-- `InventreeObject.__init__` (base.py) for the given primary-key field name
(`cls.getPkField()`) and collection URL (`cls.URL`). `get` is the transport's
`get` (parsed JSON or `None`), used by the `reload` triggered when the data
mapping is empty. Returns the constructed entity together with the transport
calls performed, or the raised exception. -/
def objInit (pkField clsUrl : String) (get : String → Option Record)
    (pk? : Option Val) (data? : Option Record) : Except PyErr (Entity × List ApiCall) :=
  -- `if pk is None and data: pk = data.get(self.getPkField(), None)`
  let pk0 : Option Val :=
    match pk?, data? with
    | none, some d => if d.isEmpty then none else getKey d pkField
    | p, _ => p
  let pk1 := denull pk0
  -- `if self.getPkField() == 'pk' and pk is not None: pk = int(str(pk).strip()) ...`
  let pkChecked : Except PyErr (Option Val) :=
    if pkField = "pk" then
      match pk1 with
      | none => .ok none
      | some v =>
          match pyIntOfString (strTrim (pyStr v)) with
          | none => .error (.typeError ("Invalid primary key value '" ++ pyStr v ++ "'"))
          | some n =>
              if n ≤ 0 then
                .error (.valueError ("Supplier <pk> value (" ++ toString n ++ ") must be positive."))
              else .ok (some (.vint n))
    else .ok pk1
  match pkChecked with
  | .error e => .error e
  | .ok pkv =>
      -- `self._url = f"{url}/{pk}/"`; `self._data = data or {}`
      let url := clsUrl ++ "/" ++ pyStrOpt pkv ++ "/"
      let d0 := data?.getD []
      -- `if len(self._data) == 0: self.reload()` (reload logs on failure)
      if d0.isEmpty then
        match get url with
        | some nd => .ok (⟨url, nd⟩, [.getC url])
        | none => .ok (⟨url, d0⟩, [.getC url])
      else .ok (⟨url, d0⟩, [])

/-- An HTTP response as seen by the client: status code, the value of the
`content-type` header (`none` when absent), and the body text. -/
structure HTTPResponse where
  status : Nat
  contentType : Option String
  body : String
deriving DecidableEq, Repr

/-- The structured detail dict attached to the `requests.exceptions.HTTPError`
raised by `InvenTreeAPI.request` on a status code >= 300. The `headers`,
`params`, `files` and `data` keys are only present when the corresponding
dict is non-empty (Python truthiness). -/
structure ErrorDetail where
  detail : String
  url : String
  method : String
  status_code : Nat
  body : String
  headers : Option Record
  params : Option Record
  files : Option Record
  data : Option Record
deriving DecidableEq, Repr

/-- Outcome of `InvenTreeAPI.request`: `None` returned (unsupported method or
null response), `HTTPError` raised with structured detail, `InvalidJSONError`
raised (content-type is not JSON), or the raw response returned. -/
inductive RequestResult where
  | noneRes
  | raisedHTTP (d : ErrorDetail)
  | raisedInvalidJSON (msg : String)
  | success (r : HTTPResponse)
deriving DecidableEq, Repr

/-- `InvenTreeAPI.constructApiUrl`: strip a leading `/` from the endpoint,
join it onto the API root (which `setHostName` guarantees ends in `/`, so
`urljoin` appends the relative endpoint), and ensure a trailing `/`. -/
def constructApiUrl (apiUrl endpoint : String) : String :=
  let e := if strStartsWith endpoint "/" then strDropOne endpoint else endpoint
  let url := apiUrl ++ e
  if strEndsWith url "/" then url else url ++ "/"

/-- The keys of the verb dispatch table in `InvenTreeAPI.request`. -/
def supportedMethods : List String := ["GET", "POST", "PUT", "PATCH", "DELETE", "OPTIONS"]

/-- `d if d else none`: Python truthiness guard used when building the
structured error detail. -/
def optIfNonEmpty (r : Record) : Option Record :=
  if r.isEmpty then none else some r

/-- The headers dict after `request` adds token authentication:
`headers['AUTHORIZATION'] = f'Token {self.token}'` when a token is stored. -/
def authHeaders (token : Option String) (headers : Record) : Record :=
  match token with
  | some t => headers ++ [("AUTHORIZATION", Val.vstr ("Token " ++ t))]
  | none => headers

/-- `InvenTreeAPI.request` (api.py) on a connected transport. `token` is the
stored auth token (`use_token_auth` with a token adds an `AUTHORIZATION`
header before the request is sent, so the header dict in the error detail
contains it). `net` maps (HTTP verb, URL) to the server's response, `none`
modelling a null response. Returns the outcome and the network calls made. -/
def request (apiRoot endpoint method : String) (token : Option String)
    (headers params data files : Record)
    (net : String → String → Option HTTPResponse) :
    RequestResult × List (String × String) :=
  let url := constructApiUrl apiRoot endpoint
  -- `if method.upper() not in methods.keys(): return None`
  if strUpper method ∈ supportedMethods then
    let m := strUpper method
    -- token auth adds the AUTHORIZATION header to the (mutable) headers dict
    let headers' := authHeaders token headers
    match net m url with
    | none => (.noneRes, [(m, url)])
    | some resp =>
        -- `if response.status_code >= 300: raise HTTPError(detail)`
        if resp.status ≥ 300 then
          (.raisedHTTP
            ⟨"Error occurred during API request", url, m, resp.status, resp.body,
              optIfNonEmpty headers', optIfNonEmpty params,
              optIfNonEmpty files, optIfNonEmpty data⟩, [(m, url)])
        -- `if method == 'DELETE': return response`
        else if m = "DELETE" then (.success resp, [(m, url)])
        -- `if not ctype == 'application/json': raise InvalidJSONError(...)`
        else if ¬(resp.contentType = some "application/json") then
          (.raisedInvalidJSON
            ("'Response content-type is not JSON - '" ++ url ++ "'"), [(m, url)])
        else (.success resp, [(m, url)])
  else (.noneRes, [])

/-- `InvenTreeAPI.MIN_SUPPORTED_API_VERSION` (api.py). -/
def minSupportedApiVersion : Int := 51

/-- Python `int(x)` on a scalar: ints pass through, bools become 0/1, strings
are parsed (`ValueError` on failure), `None` raises `TypeError`. -/
def intCoerce : Val → Except PyErr Int
  | .vnull => .error (.typeError "int() argument must be a string or a number, not 'NoneType'")
  | .vbool b => .ok (if b then 1 else 0)
  | .vint n => .ok n
  | .vstr s =>
      match pyIntOfString s with
      | some n => .ok n
      | none => .error (.valueError ("invalid literal for int(): " ++ s))

/-- `InvenTreeAPI.testServer` (api.py). `resp` is the outcome of the GET to
the root `/api/` endpoint: `none` models a caught `ConnectionError` (the
method returns `False`); otherwise the status code and the parsed JSON body.
Returns `True` on success; raises on a non-200 status, an apiVersion that
does not coerce to an integer, or a version below the supported minimum. -/
def testServer (resp : Option (Nat × Record)) : Except PyErr Bool :=
  match resp with
  | none => .ok false
  | some (status, details) =>
      if status ≠ 200 then
        .error (.requestException ("Error code from server: " ++ toString status))
      else
        -- `api_version = self.server_details.get('apiVersion', '1')`
        let av := (getKey details "apiVersion").getD (.vstr "1")
        -- `try: api_version = int(api_version) except ValueError: raise ValueError(...)`
        match av with
        | .vstr s =>
            match pyIntOfString s with
            | none => .error (.valueError ("Server returned invalid API version: '" ++ s ++ "'"))
            | some n =>
                if n < minSupportedApiVersion then
                  .error (.valueError ("Server API version (" ++ toString n ++ ") is older than minimum supported API version (" ++ toString minSupportedApiVersion ++ ")"))
                else .ok true
        | v =>
            match intCoerce v with
            | .error e => .error e
            | .ok n =>
                if n < minSupportedApiVersion then
                  .error (.valueError ("Server API version (" ++ toString n ++ ") is older than minimum supported API version (" ++ toString minSupportedApiVersion ++ ")"))
                else .ok true

/-- `InvenTreeAPI.connect` (api.py): runs `testServer`, re-raising a `Timeout`
unchanged but converting every other exception into a bare
`ConnectionRefusedError`; then performs the authentication check (`testAuth`,
abstracted by the `authOk` oracle), which also fails when the server check
returned `False`. -/
def connect (resp : Option (Nat × Record)) (authOk : Bool) : Except PyErr Unit :=
  match testServer resp with
  | .error e =>
      match e with
      | .timeoutError m => .error (.timeoutError m)
      | _ => .error (.connectionRefusedError "Could not connect to InvenTree server")
  | .ok connected =>
      if connected && authOk then .ok ()
      else .error (.connectionError "Authentication at InvenTree server failed")

/-- A flat filesystem: file path to contents, plus the set of directories. -/
structure FS where
  files : List (String × String)
  dirs : List String
deriving DecidableEq, Repr

/-- `os.path.exists`: the path is a file or a directory. -/
def fsExists (fs : FS) (p : String) : Bool :=
  fs.files.any (fun q => q.1 = p) || fs.dirs.contains p

/-- `os.path.isdir`. -/
def fsIsDir (fs : FS) (p : String) : Bool :=
  fs.dirs.contains p

/-- Contents of a file, if present. -/
def fsRead (fs : FS) (p : String) : Option String :=
  match fs.files.find? (fun q => q.1 = p) with
  | some q => some q.2
  | none => none

/-- Write (create or overwrite) a file. -/
def fsWrite (fs : FS) (p c : String) : FS :=
  ⟨(p, c) :: fs.files.filter (fun q => q.1 ≠ p), fs.dirs⟩

/-- `os.path.basename`: the component after the last `/`. -/
def basename (s : String) : String :=
  String.mk (s.data.reverse.takeWhile (fun c => c ≠ '/')).reverse

/-- Substring containment on strings (Python `needle in haystack`). -/
def listContainsSub (needle : List Char) : List Char → Bool
  | [] => needle.isEmpty
  | c :: rest => needle.isPrefixOf (c :: rest) || listContainsSub needle rest

/-- Python `sub in s` for strings. -/
def strContainsSub (hay needle : String) : Bool :=
  listContainsSub needle.data hay.data

/-- The URL built by `downloadFile`: strip a leading `/`, then
`urljoin(self.base_url, url)` (the base URL ends in `/`, so a relative url is
appended). -/
def joinUrl (baseUrl url : String) : String :=
  baseUrl ++ (if strStartsWith url "/" then strDropOne url else url)

/-- `InvenTreeAPI.downloadFile` (api.py). `baseUrl` is `self.base_url` (ends
in `/`, so `urljoin` appends the relative url); `net` maps the final URL to
the server's response; paths are taken as already absolute (`os.path.abspath`
is the identity on them). Returns the Python return value (or raised error),
the filesystem after the call, and the network calls performed. -/
def downloadFile (baseUrl : String) (fs : FS) (url destination : String)
    (overwrite : Bool) (net : String → HTTPResponse) :
    Except PyErr Bool × FS × List ApiCall :=
  let u := joinUrl baseUrl url
  -- if the destination is a directory, use the remote URL's filename
  let dest :=
    if fsExists fs destination && fsIsDir fs destination then
      destination ++ "/" ++ basename u
    else destination
  -- `if os.path.exists(destination) and not overwrite: raise FileExistsError`
  if fsExists fs dest && !overwrite then
    (.error (.fileExistsError ("Destination file '" ++ dest ++ "' already exists")), fs, [])
  else
    let resp := net u
    -- `if response.status_code >= 300: raise HTTPError(detail)`
    if resp.status ≥ 300 then
      (.error (.requestException ("Error occurred during file download: " ++ u ++ " " ++ toString resp.status ++ " " ++ resp.body)), fs, [.getC u])
    -- `if 'Content-Type' in headers and 'text/html' in headers['Content-Type']: return False`
    else
      match resp.contentType with
      | some ct =>
          if strContainsSub ct "text/html" then (.ok false, fs, [.getC u])
          else (.ok true, fsWrite fs dest resp.body, [.getC u])
      | none => (.ok true, fsWrite fs dest resp.body, [.getC u])

/-- The transport as seen by the model layer: the verb-specific convenience
wrappers of `InvenTreeAPI` (`get`/`post`/`patch`/`put`), each returning the
parsed JSON body on success and `None` on any failure (null response, bad
status, JSON decode error), exactly as the Python wrappers do. -/
structure Transport where
  getR : String → Option Record
  postR : String → Record → Option Record
  patchR : String → Record → Option Record
  putR : String → Record → Option Record

/-- The JSON body of a list request, after parsing: `None`, a bare array of
records, or a paginated envelope dict `{"results": [...]}` with a non-null
list of results. -/
inductive ListResponse where
  | nullRes
  | bare (items : List Record)
  | envelope (results : List Record)
deriving DecidableEq, Repr

/-- The `for data in response` loop at the end of `InventreeObject.list`:
records missing the primary-key field are skipped, the rest are passed to the
constructor. A constructor exception propagates out of `list`. -/
def buildItems (pkField clsUrl : String) (get : String → Option Record) :
    List Record → Except PyErr (List Entity)
  | [] => .ok []
  | r :: rest =>
      if hasKey r pkField then
        match objInit pkField clsUrl get none (some r) with
        | .error e => .error e
        | .ok (ent, _) =>
            match buildItems pkField clsUrl get rest with
            | .error e => .error e
            | .ok es => .ok (ent :: es)
      else buildItems pkField clsUrl get rest

/-- `InventreeObject.list` (base.py), given the parsed response of the GET on
the collection endpoint: a null response yields `[]`; a dict response with a
non-null `results` key is unwrapped to its results list; then each record
containing the primary-key field is wrapped as an entity. -/
def listObjects (pkField clsUrl : String) (get : String → Option Record)
    (resp : ListResponse) : Except PyErr (List Entity) :=
  match resp with
  | .nullRes => .ok []
  | .bare items => buildItems pkField clsUrl get items
  | .envelope results => buildItems pkField clsUrl get results

/-- Outcome of `InventreeObject.create`. `callerData` is the state of the
caller's `data` dict after the call: `create` pops the primary-key entry from
the caller's dict in place, not from a private copy. -/
structure CreateOutcome where
  result : Except PyErr (Option Entity)
  callerData : Record
  calls : List ApiCall
deriving Repr

/-- The pk-stripping step of `InventreeObject.create`:
`if cls.getPkField() in data.keys(): data.pop(cls.getPkField())`. Because
`data.pop` mutates the caller's dict, this is also the state of the caller's
mapping after `create` returns. -/
def popPk (pkField : String) (data : Record) : Record :=
  if hasKey data pkField then eraseKey data pkField else data

/-- `InventreeObject.create` (base.py): pop the primary-key field from the
payload (in place), POST it, return `None` on a null response, otherwise wrap
the response as a new entity via the constructor. -/
def createObject (pkField clsUrl : String) (t : Transport) (data : Record) :
    CreateOutcome :=
  let d := popPk pkField data
  match t.postR clsUrl d with
  | none => ⟨.ok none, d, [.postC clsUrl d]⟩
  | some r =>
      match objInit pkField clsUrl t.getR none (some r) with
      | .error e => ⟨.error e, d, [.postC clsUrl d]⟩
      | .ok (ent, cs) => ⟨.ok (some ent), d, [.postC clsUrl d] ++ cs⟩

/-- `InventreeObject.reload` (base.py): GET the instance URL; on `None` only
log (the cached mapping is kept), otherwise replace the cached mapping. -/
def reloadObject (get : String → Option Record) (e : Entity) : Entity :=
  match get e.url with
  | some nd => ⟨e.url, nd⟩
  | none => e

/-- `InventreeObject.save` (base.py): when `data` is omitted the entire
cached mapping is submitted; `PATCH` (the default) and `PUT` dispatch to the
corresponding transport wrapper, any other method only logs a warning and
returns early (modelled as `none`). A non-null response replaces the cached
mapping; a null response triggers a `reload`. Returns the Python return
value and new entity state (or `none` for the early return), plus the calls
made. -/
def saveObject (t : Transport) (e : Entity) (data? : Option Record)
    (method : String) : Option (Option Record × Entity) × List ApiCall :=
  let d := data?.getD e.data
  if strLower method = "patch" then
    match t.patchR e.url d with
    | some r => (some (some r, ⟨e.url, r⟩), [.patchC e.url d])
    | none => (some (none, reloadObject t.getR e), [.patchC e.url d, .getC e.url])
  else if strLower method = "put" then
    match t.putR e.url d with
    | some r => (some (some r, ⟨e.url, r⟩), [.putC e.url d])
    | none => (some (none, reloadObject t.getR e), [.putC e.url d, .getC e.url])
  else (none, [])

/-- The closed status vocabulary checked by `StatusMixin._statusupdate`. -/
def statusVocab : List String := ["complete", "cancel", "hold", "ship", "issue", "finish"]

/-- The `pk` property of `InventreeObject` for the default primary-key field:
`int(self._data.get('pk'))`. -/
def pkProp (e : Entity) : Except PyErr Int :=
  match denull (getKey e.data "pk") with
  | none => .error (.typeError "int() argument must be a string or a number, not 'NoneType'")
  | some v => intCoerce v

/-- `StatusMixin._statusupdate` (base.py): a status outside the fixed
vocabulary raises `ValueError` before anything else happens; otherwise a POST
is made to `URL + f"/{self.pk}/{status}"` with the given data, followed by a
`reload` when requested. Returns the POST response and the entity state
afterwards, plus the calls made. -/
def statusUpdate (clsUrl : String) (t : Transport) (e : Entity)
    (status : String) (reload : Bool) (data? : Option Record) :
    Except PyErr (Option Record × Entity) × List ApiCall :=
  if status ∈ statusVocab then
    match pkProp e with
    | .error err => (.error err, [])
    | .ok n =>
        let url := clsUrl ++ "/" ++ toString n ++ "/" ++ status
        let d := data?.getD []
        let resp := t.postR url d
        let e' := if reload then reloadObject t.getR e else e
        (.ok (resp, e'), [.postC url d] ++ (if reload then [.getC e.url] else []))
  else (.error (.valueError ("Order stats " ++ status ++ " not supported.")), [])

/-- `denull` is the identity on values other than `null`. -/
theorem denull_some_of_ne {v : Val} (hv : v ≠ .vnull) : denull (some v) = some v := by
  cases v with
  | vnull => exact absurd rfl hv
  | vbool b => rfl
  | vint n => rfl
  | vstr s => rfl

/-- C1: on a supported method, `InvenTreeAPI.request` raises an `HTTPError`
whose structured detail carries the constructed URL, the upper-cased verb,
the status code and the body whenever the status is >= 300; below 300 a
DELETE response is returned as-is with no content-type check; any other verb
raises `InvalidJSONError` unless the content-type is exactly
`application/json`, in which case the raw response is returned. -/
theorem request_response_contract
    (apiRoot endpoint method : String) (token : Option String)
    (headers params data files : Record)
    (net : String → String → Option HTTPResponse) (resp : HTTPResponse)
    (hm : strUpper method ∈ supportedMethods)
    (hn : net (strUpper method) (constructApiUrl apiRoot endpoint) = some resp) :
    (resp.status ≥ 300 →
      request apiRoot endpoint method token headers params data files net =
        (.raisedHTTP ⟨"Error occurred during API request",
            constructApiUrl apiRoot endpoint, strUpper method, resp.status, resp.body,
            optIfNonEmpty (authHeaders token headers), optIfNonEmpty params,
            optIfNonEmpty files, optIfNonEmpty data⟩,
          [(strUpper method, constructApiUrl apiRoot endpoint)]))
    ∧ (resp.status < 300 → strUpper method = "DELETE" →
      request apiRoot endpoint method token headers params data files net =
        (.success resp, [(strUpper method, constructApiUrl apiRoot endpoint)]))
    ∧ (resp.status < 300 → strUpper method ≠ "DELETE" →
        resp.contentType ≠ some "application/json" →
      ∃ msg, request apiRoot endpoint method token headers params data files net =
        (.raisedInvalidJSON msg,
          [(strUpper method, constructApiUrl apiRoot endpoint)]))
    ∧ (resp.status < 300 → strUpper method ≠ "DELETE" →
        resp.contentType = some "application/json" →
      request apiRoot endpoint method token headers params data files net =
        (.success resp, [(strUpper method, constructApiUrl apiRoot endpoint)])) := by
  refine ⟨?_, ?_, ?_, ?_⟩
  · intro hs
    simp only [request, if_pos hm, hn]
    rw [if_pos hs]
  · intro hs hd
    simp only [request, if_pos hm, hn]
    rw [if_neg (by omega), if_pos hd]
  · intro hs hd hc
    refine ⟨"'Response content-type is not JSON - '" ++ constructApiUrl apiRoot endpoint ++ "'", ?_⟩
    simp only [request, if_pos hm, hn]
    rw [if_neg (by omega), if_neg hd, if_pos hc]
  · intro hs hd hc
    simp only [request, if_pos hm, hn]
    rw [if_neg (by omega), if_neg hd, if_neg (by simp [hc])]

/-- Witness for C1: a 404 GET raises with detail carrying the URL, verb,
status and body; a 204 DELETE is returned unparsed; a `text/html` GET raises
the content-type error; a JSON GET returns the raw response. -/
theorem request_response_contract_witness :
    (request "http://x/api/" "part/" "get" none [] [] [] []
        (fun _ _ => some ⟨404, some "application/json", "not found"⟩) =
      (.raisedHTTP ⟨"Error occurred during API request", "http://x/api/part/", "GET",
          404, "not found", none, none, none, none⟩, [("GET", "http://x/api/part/")]))
    ∧ (request "http://x/api/" "part/1/" "delete" none [] [] [] []
        (fun _ _ => some ⟨204, none, ""⟩) =
      (.success ⟨204, none, ""⟩, [("DELETE", "http://x/api/part/1/")]))
    ∧ (∃ msg, request "http://x/api/" "part/" "get" none [] [] [] []
        (fun _ _ => some ⟨200, some "text/html", "<html>"⟩) =
      (.raisedInvalidJSON msg, [("GET", "http://x/api/part/")]))
    ∧ (request "http://x/api/" "part/" "get" none [] [] [] []
        (fun _ _ => some ⟨200, some "application/json", "[]"⟩) =
      (.success ⟨200, some "application/json", "[]"⟩, [("GET", "http://x/api/part/")])) := by
  refine ⟨?_, ?_, ?_, ?_⟩
  · exact (request_response_contract "http://x/api/" "part/" "get" none [] [] [] []
      (fun _ _ => some ⟨404, some "application/json", "not found"⟩) ⟨404, some "application/json", "not found"⟩
      (by decide) rfl).1 (by decide)
  · exact (request_response_contract "http://x/api/" "part/1/" "delete" none [] [] [] []
      (fun _ _ => some ⟨204, none, ""⟩) ⟨204, none, ""⟩
      (by decide) rfl).2.1 (by decide) (by decide)
  · exact (request_response_contract "http://x/api/" "part/" "get" none [] [] [] []
      (fun _ _ => some ⟨200, some "text/html", "<html>"⟩) ⟨200, some "text/html", "<html>"⟩
      (by decide) rfl).2.2.1 (by decide) (by decide) (by decide)
  · exact (request_response_contract "http://x/api/" "part/" "get" none [] [] [] []
      (fun _ _ => some ⟨200, some "application/json", "[]"⟩) ⟨200, some "application/json", "[]"⟩
      (by decide) rfl).2.2.2 (by decide) (by decide) rfl

/-- C5 counterexample: `request` called with the unsupported method
`"teleport"` does not raise — it returns `None` (with no network call made),
contradicting the claim that a request-shape error is raised. -/
theorem request_unknown_method_counterexample :
    request "http://x/api/" "part/" "teleport" none [] [] [] []
        (fun _ _ => some ⟨200, some "application/json", "{}"⟩) =
      (.noneRes, []) := by decide

/-- C5 (amended): for any HTTP method outside the supported set
(case-insensitive), `request` logs an error and returns `None` without
making any network call; it does not raise. -/
theorem request_unknown_method_returns_none
    (apiRoot endpoint method : String) (token : Option String)
    (headers params data files : Record)
    (net : String → String → Option HTTPResponse)
    (hm : strUpper method ∉ supportedMethods) :
    request apiRoot endpoint method token headers params data files net =
      (.noneRes, []) := by
  simp only [request]
  rw [if_neg hm]

/-- Witness for the amended C5 theorem at the concrete method `"teleport"`. -/
theorem request_unknown_method_returns_none_witness :
    request "http://x/api/" "part/" "teleport" none [] [] [] []
        (fun _ _ => some ⟨200, some "application/json", "{}"⟩) =
      (.noneRes, []) :=
  request_unknown_method_returns_none "http://x/api/" "part/" "teleport" none [] [] [] []
    (fun _ _ => some ⟨200, some "application/json", "{}"⟩) (by decide)

/-- C2: for an entity type whose primary-key field is the default `pk`,
constructing with a pk value (passed directly, or found inside the data
mapping) that does not coerce to an integer raises `TypeError`, and one that
coerces to an integer <= 0 raises `ValueError`; in both cases the constructor
raises (the `Except` is an error, so no entity object is produced). -/
theorem init_invalid_pk_raises (clsUrl : String) (get : String → Option Record)
    (v : Val) (d : Record) (extra : Option Record)
    (hv : v ≠ .vnull) (hd : getKey d "pk" = some v) (hne : d.isEmpty = false) :
    (pyIntOfString (strTrim (pyStr v)) = none →
      (∃ m, objInit "pk" clsUrl get (some v) extra = .error (.typeError m)) ∧
      (∃ m, objInit "pk" clsUrl get none (some d) = .error (.typeError m)))
    ∧ (∀ n : Int, pyIntOfString (strTrim (pyStr v)) = some n → n ≤ 0 →
      (∃ m, objInit "pk" clsUrl get (some v) extra = .error (.valueError m)) ∧
      (∃ m, objInit "pk" clsUrl get none (some d) = .error (.valueError m))) := by
  constructor
  · intro hc
    constructor
    · refine ⟨"Invalid primary key value '" ++ pyStr v ++ "'", ?_⟩
      simp [objInit, denull_some_of_ne hv, hc]
    · refine ⟨"Invalid primary key value '" ++ pyStr v ++ "'", ?_⟩
      simp [objInit, hne, hd, denull_some_of_ne hv, hc]
  · intro n hc hn
    constructor
    · refine ⟨"Supplier <pk> value (" ++ toString n ++ ") must be positive.", ?_⟩
      simp [objInit, denull_some_of_ne hv, hc, hn]
    · refine ⟨"Supplier <pk> value (" ++ toString n ++ ") must be positive.", ?_⟩
      simp [objInit, hne, hd, denull_some_of_ne hv, hc, hn]

/-- Witness for C2: the string pk `"abc"` raises `TypeError` and the integer
pk `0` raises `ValueError`, both when passed directly and when found inside
the data mapping. -/
theorem init_invalid_pk_raises_witness :
    (∃ m, objInit "pk" "part" (fun _ => none) (some (.vstr "abc")) none = .error (.typeError m))
    ∧ (∃ m, objInit "pk" "part" (fun _ => none) none
        (some [("pk", Val.vstr "abc"), ("name", Val.vstr "w")]) = .error (.typeError m))
    ∧ (∃ m, objInit "pk" "part" (fun _ => none) (some (.vint 0)) none = .error (.valueError m))
    ∧ (∃ m, objInit "pk" "part" (fun _ => none) none
        (some [("pk", Val.vint 0)]) = .error (.valueError m)) := by
  refine ⟨?_, ?_, ?_, ?_⟩
  · exact ((init_invalid_pk_raises "part" (fun _ => none) (.vstr "abc")
      [("pk", Val.vstr "abc"), ("name", Val.vstr "w")] none
      (by decide) (by decide) (by decide)).1 (by decide)).1
  · exact ((init_invalid_pk_raises "part" (fun _ => none) (.vstr "abc")
      [("pk", Val.vstr "abc"), ("name", Val.vstr "w")] none
      (by decide) (by decide) (by decide)).1 (by decide)).2
  · exact ((init_invalid_pk_raises "part" (fun _ => none) (.vint 0)
      [("pk", Val.vint 0)] none
      (by decide) (by decide) (by decide)).2 0 (by decide) (by decide)).1
  · exact ((init_invalid_pk_raises "part" (fun _ => none) (.vint 0)
      [("pk", Val.vint 0)] none
      (by decide) (by decide) (by decide)).2 0 (by decide) (by decide)).2

/-- A record constructed from non-empty data keeps exactly that data as its
cached mapping (no reload is triggered, nothing is dropped or added). -/
theorem objInit_data_of_ok (pkField clsUrl : String) (get : String → Option Record)
    (r : Record) (e : Entity) (cs : List ApiCall)
    (hne : r.isEmpty = false)
    (hok : objInit pkField clsUrl get none (some r) = .ok (e, cs)) : e.data = r := by
  simp only [objInit] at hok
  split at hok
  · cases hok
  · simp only [Option.getD_some, hne, Bool.false_eq_true, if_false] at hok
    cases hok
    rfl

/-- A record containing a key is not the empty dict. -/
theorem not_isEmpty_of_hasKey {r : Record} {k : String} (h : hasKey r k = true) :
    r.isEmpty = false := by
  cases r with
  | nil => cases h
  | cons p rest => rfl

/-- C3: `list` applied to the paginated envelope `{"results": L}` and to the
bare array `L` produce identical outcomes; on success the returned entities
are exactly the records of `L` that contain the primary-key field (records
lacking it are skipped), each carrying the full data mapping of its record.
The hypothesis says each kept record constructs successfully (its pk value,
if checked, is a valid positive key). -/
theorem list_envelope_bare_and_skips (pkField clsUrl : String)
    (get : String → Option Record) (L : List Record)
    (h : ∀ r ∈ L, hasKey r pkField = true →
      isOkE (objInit pkField clsUrl get none (some r)) = true) :
    listObjects pkField clsUrl get (.envelope L) = listObjects pkField clsUrl get (.bare L)
    ∧ ∃ es, listObjects pkField clsUrl get (.bare L) = .ok es
        ∧ es.map Entity.data = L.filter (fun r => hasKey r pkField) := by
  refine ⟨rfl, ?_⟩
  induction L with
  | nil => exact ⟨[], rfl, rfl⟩
  | cons r rest ih =>
      obtain ⟨es, hes, hmap⟩ := ih (fun q hq hk => h q (List.mem_cons_of_mem r hq) hk)
      by_cases hk : hasKey r pkField = true
      · have hok := h r (List.mem_cons_self r rest) hk
        cases hini : objInit pkField clsUrl get none (some r) with
        | error err => rw [hini] at hok; cases hok
        | ok pr =>
            obtain ⟨e, cs⟩ := pr
            have hdata := objInit_data_of_ok pkField clsUrl get r e cs
              (not_isEmpty_of_hasKey hk) hini
            refine ⟨e :: es, ?_, ?_⟩
            · show buildItems pkField clsUrl get (r :: rest) = .ok (e :: es)
              simp only [buildItems, hk, if_true, hini]
              rw [show listObjects pkField clsUrl get (.bare rest) = buildItems pkField clsUrl get rest from rfl] at hes
              rw [hes]
            · simp only [List.map_cons, List.filter_cons, hk, if_true, hdata]
              rw [hmap]
      · have hk' : hasKey r pkField = false := by
          cases hkk : hasKey r pkField
          · rfl
          · exact absurd hkk hk
        refine ⟨es, ?_, ?_⟩
        · show buildItems pkField clsUrl get (r :: rest) = .ok es
          simp only [buildItems, hk', Bool.false_eq_true, if_false]
          exact hes
        · simp only [List.filter_cons, hk', Bool.false_eq_true, if_false]
          rw [hmap]

/-- Witness for C3 on a concrete two-record list where the second record
lacks the primary-key field: envelope and bare responses agree, the pk-less
record is skipped, and the kept entity carries its full record. -/
theorem list_envelope_bare_and_skips_witness :
    (listObjects "pk" "part" (fun _ => none)
        (.envelope [[("pk", Val.vint 7), ("name", Val.vstr "widget")], [("name", Val.vstr "stray")]])
      = listObjects "pk" "part" (fun _ => none)
        (.bare [[("pk", Val.vint 7), ("name", Val.vstr "widget")], [("name", Val.vstr "stray")]]))
    ∧ ∃ es, listObjects "pk" "part" (fun _ => none)
        (.bare [[("pk", Val.vint 7), ("name", Val.vstr "widget")], [("name", Val.vstr "stray")]]) = .ok es
        ∧ es.map Entity.data = [[("pk", Val.vint 7), ("name", Val.vstr "widget")]] :=
  list_envelope_bare_and_skips "pk" "part" (fun _ => none)
    [[("pk", Val.vint 7), ("name", Val.vstr "widget")], [("name", Val.vstr "stray")]]
    (by decide)

/-- C4: `save()` with `data` omitted submits the entire cached mapping — via
PATCH by default, or PUT when requested. A non-null transport response
replaces the cached mapping by exactly that response; a null response makes
the object perform a fresh GET (`reload`) of its instance URL, adopting the
server's state when the GET succeeds. -/
theorem save_submits_cache_and_resyncs (t : Transport) (e : Entity) :
    ((saveObject t e none "PATCH").2.head? = some (.patchC e.url e.data))
    ∧ (∀ r, t.patchR e.url e.data = some r →
        saveObject t e none "PATCH" =
          (some (some r, ⟨e.url, r⟩), [.patchC e.url e.data]))
    ∧ (t.patchR e.url e.data = none →
        saveObject t e none "PATCH" =
          (some (none, reloadObject t.getR e), [.patchC e.url e.data, .getC e.url]))
    ∧ (∀ r, t.putR e.url e.data = some r →
        saveObject t e none "PUT" =
          (some (some r, ⟨e.url, r⟩), [.putC e.url e.data]))
    ∧ (t.putR e.url e.data = none →
        saveObject t e none "PUT" =
          (some (none, reloadObject t.getR e), [.putC e.url e.data, .getC e.url]))
    ∧ (∀ nd, t.getR e.url = some nd → reloadObject t.getR e = ⟨e.url, nd⟩) := by
  have h1 : strLower "PATCH" = "patch" := by decide
  have h2 : strLower "PUT" = "put" := by decide
  have h3 : ¬(strLower "PUT" = "patch") := by decide
  refine ⟨?_, ?_, ?_, ?_, ?_, ?_⟩
  · cases hp : t.patchR e.url e.data with
    | none => simp [saveObject, hp, h1]
    | some r => simp [saveObject, hp, h1]
  · intro r hp
    simp [saveObject, hp, h1]
  · intro hp
    simp [saveObject, hp, h1]
  · intro r hp
    simp [saveObject, hp, h2, h3]
  · intro hp
    simp [saveObject, hp, h2, h3]
  · intro nd hg
    simp [reloadObject, hg]

/-- Witness for C4 on a concrete entity and transport: the PATCH payload is
the whole cached mapping; a responding transport replaces the cache with the
response; a null-responding transport triggers a GET whose result becomes
the new cache. -/
theorem save_submits_cache_and_resyncs_witness :
    ((saveObject ⟨fun _ => none, fun _ _ => none, fun _ _ => some [("pk", Val.vint 2), ("q", Val.vint 7)], fun _ _ => none⟩
        ⟨"part/2/", [("pk", Val.vint 2)]⟩ none "PATCH").2.head?
      = some (.patchC "part/2/" [("pk", Val.vint 2)]))
    ∧ (saveObject ⟨fun _ => none, fun _ _ => none, fun _ _ => some [("pk", Val.vint 2), ("q", Val.vint 7)], fun _ _ => none⟩
        ⟨"part/2/", [("pk", Val.vint 2)]⟩ none "PATCH"
      = (some (some [("pk", Val.vint 2), ("q", Val.vint 7)], ⟨"part/2/", [("pk", Val.vint 2), ("q", Val.vint 7)]⟩),
          [.patchC "part/2/" [("pk", Val.vint 2)]]))
    ∧ (saveObject ⟨fun _ => some [("pk", Val.vint 2), ("srv", Val.vbool true)], fun _ _ => none, fun _ _ => none, fun _ _ => none⟩
        ⟨"part/2/", [("pk", Val.vint 2)]⟩ none "PATCH"
      = (some (none, ⟨"part/2/", [("pk", Val.vint 2), ("srv", Val.vbool true)]⟩),
          [.patchC "part/2/" [("pk", Val.vint 2)], .getC "part/2/"])) := by
  refine ⟨?_, ?_, ?_⟩
  · exact (save_submits_cache_and_resyncs
      ⟨fun _ => none, fun _ _ => none, fun _ _ => some [("pk", Val.vint 2), ("q", Val.vint 7)], fun _ _ => none⟩
      ⟨"part/2/", [("pk", Val.vint 2)]⟩).1
  · exact (save_submits_cache_and_resyncs
      ⟨fun _ => none, fun _ _ => none, fun _ _ => some [("pk", Val.vint 2), ("q", Val.vint 7)], fun _ _ => none⟩
      ⟨"part/2/", [("pk", Val.vint 2)]⟩).2.1 [("pk", Val.vint 2), ("q", Val.vint 7)] rfl
  · exact (save_submits_cache_and_resyncs
      ⟨fun _ => some [("pk", Val.vint 2), ("srv", Val.vbool true)], fun _ _ => none, fun _ _ => none, fun _ _ => none⟩
      ⟨"part/2/", [("pk", Val.vint 2)]⟩).2.2.1 rfl

/-- Popping a key really removes it: the erased dict no longer contains it. -/
theorem hasKey_eraseKey (r : Record) (k : String) : hasKey (eraseKey r k) k = false := by
  rw [hasKey, eraseKey, List.any_eq_false]
  intro p hp
  have h := List.of_mem_filter hp
  simp only [ne_eq, decide_not, Bool.not_eq_eq_eq_not, Bool.not_true, decide_eq_false_iff_not] at h
  simp only [decide_eq_true_eq]
  exact h

/-- The payload prepared by `create` never contains the primary-key field. -/
theorem hasKey_popPk (pkField : String) (data : Record) :
    hasKey (popPk pkField data) pkField = false := by
  unfold popPk
  by_cases h : hasKey data pkField = true
  · rw [if_pos h]
    exact hasKey_eraseKey data pkField
  · rw [if_neg h]
    cases hh : hasKey data pkField
    · rfl
    · exact absurd hh h

/-- C6: `create` POSTs a payload from which the primary-key field has been
stripped (even when the input mapping contains it); a null POST response
yields `None` (no exception); a non-null response is wrapped as a new entity
whose cached mapping is exactly the server's response. -/
theorem create_strips_pk_and_wraps_response (pkField clsUrl : String)
    (t : Transport) (D : Record) :
    (hasKey (popPk pkField D) pkField = false
      ∧ (createObject pkField clsUrl t D).calls.head? = some (.postC clsUrl (popPk pkField D)))
    ∧ (t.postR clsUrl (popPk pkField D) = none →
        (createObject pkField clsUrl t D).result = .ok none)
    ∧ (∀ r e cs, t.postR clsUrl (popPk pkField D) = some r →
        objInit pkField clsUrl t.getR none (some r) = .ok (e, cs) →
        (createObject pkField clsUrl t D).result = .ok (some e)
        ∧ (r.isEmpty = false → e.data = r)) := by
  refine ⟨⟨hasKey_popPk pkField D, ?_⟩, ?_, ?_⟩
  · cases hp : t.postR clsUrl (popPk pkField D) with
    | none => simp [createObject, hp]
    | some r =>
        cases hi : objInit pkField clsUrl t.getR none (some r) with
        | error err => simp [createObject, hp, hi]
        | ok pr => obtain ⟨e, cs⟩ := pr; simp [createObject, hp, hi]
  · intro hp
    simp [createObject, hp]
  · intro r e cs hp hi
    refine ⟨by simp [createObject, hp, hi], ?_⟩
    intro hne
    exact objInit_data_of_ok pkField clsUrl t.getR r e cs hne hi

/-- Witness for C6 on a concrete transport that echoes the payload back with
a server-assigned pk: the POSTed payload has the input's pk stripped, a null
response gives `None`, and a successful response becomes the new entity's
cached mapping. -/
theorem create_strips_pk_and_wraps_response_witness :
    (hasKey (popPk "pk" [("pk", Val.vint 3), ("name", Val.vstr "x")]) "pk" = false
      ∧ (createObject "pk" "part"
          ⟨fun _ => none, fun _ d => some (("pk", Val.vint 9) :: d), fun _ _ => none, fun _ _ => none⟩
          [("pk", Val.vint 3), ("name", Val.vstr "x")]).calls.head?
        = some (.postC "part" [("name", Val.vstr "x")]))
    ∧ ((createObject "pk" "part"
          ⟨fun _ => none, fun _ _ => none, fun _ _ => none, fun _ _ => none⟩
          [("pk", Val.vint 3), ("name", Val.vstr "x")]).result = .ok none)
    ∧ ((createObject "pk" "part"
          ⟨fun _ => none, fun _ d => some (("pk", Val.vint 9) :: d), fun _ _ => none, fun _ _ => none⟩
          [("pk", Val.vint 3), ("name", Val.vstr "x")]).result
        = .ok (some ⟨"part/9/", [("pk", Val.vint 9), ("name", Val.vstr "x")]⟩)
      ∧ (⟨"part/9/", [("pk", Val.vint 9), ("name", Val.vstr "x")]⟩ : Entity).data
        = [("pk", Val.vint 9), ("name", Val.vstr "x")]) := by
  refine ⟨?_, ?_, ?_⟩
  · exact (create_strips_pk_and_wraps_response "pk" "part"
      ⟨fun _ => none, fun _ d => some (("pk", Val.vint 9) :: d), fun _ _ => none, fun _ _ => none⟩
      [("pk", Val.vint 3), ("name", Val.vstr "x")]).1
  · exact (create_strips_pk_and_wraps_response "pk" "part"
      ⟨fun _ => none, fun _ _ => none, fun _ _ => none, fun _ _ => none⟩
      [("pk", Val.vint 3), ("name", Val.vstr "x")]).2.1 rfl
  · have h := (create_strips_pk_and_wraps_response "pk" "part"
      ⟨fun _ => none, fun _ d => some (("pk", Val.vint 9) :: d), fun _ _ => none, fun _ _ => none⟩
      [("pk", Val.vint 3), ("name", Val.vstr "x")]).2.2
      [("pk", Val.vint 9), ("name", Val.vstr "x")]
      ⟨"part/9/", [("pk", Val.vint 9), ("name", Val.vstr "x")]⟩ [] rfl (by decide)
    exact ⟨h.1, h.2 (by decide)⟩

/-- C10: when the input mapping contains the primary-key field, `create`
removes that entry from the caller's own dict (`data.pop` mutates in place),
so after the call the caller's mapping no longer contains the key. -/
theorem create_mutates_caller_data (pkField clsUrl : String) (t : Transport)
    (D : Record) (h : hasKey D pkField = true) :
    (createObject pkField clsUrl t D).callerData = eraseKey D pkField
    ∧ hasKey (createObject pkField clsUrl t D).callerData pkField = false := by
  have hcd : (createObject pkField clsUrl t D).callerData = popPk pkField D := by
    cases hp : t.postR clsUrl (popPk pkField D) with
    | none => simp [createObject, hp]
    | some r =>
        cases hi : objInit pkField clsUrl t.getR none (some r) with
        | error err => simp [createObject, hp, hi]
        | ok pr => obtain ⟨e, cs⟩ := pr; simp [createObject, hp, hi]
  constructor
  · rw [hcd, popPk, if_pos h]
  · rw [hcd]
    exact hasKey_popPk pkField D

/-- Witness for C10: creating from a mapping containing `pk` leaves the
caller's mapping without that key after the call. -/
theorem create_mutates_caller_data_witness :
    (createObject "pk" "part"
        ⟨fun _ => none, fun _ _ => none, fun _ _ => none, fun _ _ => none⟩
        [("pk", Val.vint 3), ("name", Val.vstr "x")]).callerData
      = [("name", Val.vstr "x")]
    ∧ hasKey (createObject "pk" "part"
        ⟨fun _ => none, fun _ _ => none, fun _ _ => none, fun _ _ => none⟩
        [("pk", Val.vint 3), ("name", Val.vstr "x")]).callerData "pk" = false :=
  create_mutates_caller_data "pk" "part"
    ⟨fun _ => none, fun _ _ => none, fun _ _ => none, fun _ _ => none⟩
    [("pk", Val.vint 3), ("name", Val.vstr "x")] (by decide)

/-- C7 counterexample: against a server reporting `apiVersion: 1` (below the
minimum 51), the error raised by `connect` — and hence by Transport
construction — is the generic `ConnectionRefusedError` with no version
information, not a version-incompatibility error: `connect` catches the
`ValueError` raised inside `testServer` and replaces it. -/
theorem connect_masks_version_error_counterexample :
    connect (some (200, [("apiVersion", Val.vint 1)])) true
      = .error (.connectionRefusedError "Could not connect to InvenTree server") := by
  decide

/-- C7 (amended): a reported apiVersion coercing to an integer below the
hard-coded minimum (51) makes `testServer` raise a version-incompatibility
`ValueError`, and a non-integer apiVersion string likewise raises a
`ValueError`; `connect` (used by construction) converts either into a
`ConnectionRefusedError`, so construction still always fails before any
entity operation — there is no silent degrade — but the surfaced error is a
generic connection error, not a version error. -/
theorem version_too_old_raises (body : Record) (authOk : Bool) :
    (∀ n : Int, getKey body "apiVersion" = some (.vint n) → n < minSupportedApiVersion →
      (∃ m, testServer (some (200, body)) = .error (.valueError m))
      ∧ connect (some (200, body)) authOk
          = .error (.connectionRefusedError "Could not connect to InvenTree server"))
    ∧ (∀ s, getKey body "apiVersion" = some (.vstr s) → pyIntOfString s = none →
      (∃ m, testServer (some (200, body)) = .error (.valueError m))
      ∧ connect (some (200, body)) authOk
          = .error (.connectionRefusedError "Could not connect to InvenTree server")) := by
  constructor
  · intro n hv hlt
    have hts : testServer (some (200, body))
        = .error (.valueError ("Server API version (" ++ toString n
            ++ ") is older than minimum supported API version ("
            ++ toString minSupportedApiVersion ++ ")")) := by
      simp [testServer, hv, intCoerce, hlt]
    exact ⟨⟨_, hts⟩, by simp [connect, hts]⟩
  · intro s hv hc
    have hts : testServer (some (200, body))
        = .error (.valueError ("Server returned invalid API version: '" ++ s ++ "'")) := by
      simp [testServer, hv, hc]
    exact ⟨⟨_, hts⟩, by simp [connect, hts]⟩

/-- Witness for the amended C7 theorem: apiVersion 1 and the non-integer
apiVersion string `"x.y"` both fail `testServer` with a `ValueError` and make
`connect` raise. -/
theorem version_too_old_raises_witness :
    ((∃ m, testServer (some (200, [("apiVersion", Val.vint 1)])) = .error (.valueError m))
      ∧ connect (some (200, [("apiVersion", Val.vint 1)])) true
          = .error (.connectionRefusedError "Could not connect to InvenTree server"))
    ∧ ((∃ m, testServer (some (200, [("apiVersion", Val.vstr "x.y")])) = .error (.valueError m))
      ∧ connect (some (200, [("apiVersion", Val.vstr "x.y")])) true
          = .error (.connectionRefusedError "Could not connect to InvenTree server")) :=
  ⟨(version_too_old_raises [("apiVersion", Val.vint 1)] true).1 1 (by decide) (by decide),
   (version_too_old_raises [("apiVersion", Val.vstr "x.y")] true).2 "x.y" (by decide) (by decide)⟩

/-- C8: when the destination file already exists and overwrite is not set,
`downloadFile` raises `FileExistsError` before any network transfer (no call
is made) and the filesystem — including the existing file's contents — is
unchanged; and when the server answers a non-error status with an HTML
content-type, the call returns the failure indicator `False` without writing
anything to disk, rather than saving the response body. -/
theorem downloadFile_guards (baseUrl : String) (fs : FS) (url destination : String)
    (net : String → HTTPResponse) :
    (fsIsDir fs destination = false → fsExists fs destination = true →
      downloadFile baseUrl fs url destination false net =
        (.error (.fileExistsError ("Destination file '" ++ destination ++ "' already exists")),
          fs, []))
    ∧ (∀ (overwrite : Bool) (ct : String),
        fsIsDir fs destination = false → fsExists fs destination = false →
        (net (joinUrl baseUrl url)).status < 300 →
        (net (joinUrl baseUrl url)).contentType = some ct →
        strContainsSub ct "text/html" = true →
        downloadFile baseUrl fs url destination overwrite net =
          (.ok false, fs, [.getC (joinUrl baseUrl url)])) := by
  constructor
  · intro hdir hex
    simp [downloadFile, hdir, hex]
  · intro overwrite ct hdir hex hst hct hhtml
    simp [downloadFile, hdir, hex, hct, hhtml, Nat.not_le_of_lt hst]

/-- Witness for C8: a second download to an existing destination raises and
leaves the old contents in place; an HTML response on a fresh destination
returns `False` and writes nothing. -/
theorem downloadFile_guards_witness :
    (downloadFile "http://x/" ⟨[("/tmp/f.pdf", "old")], []⟩ "media/f.pdf" "/tmp/f.pdf" false
        (fun _ => ⟨200, some "application/pdf", "DATA"⟩) =
      (.error (.fileExistsError "Destination file '/tmp/f.pdf' already exists"),
        ⟨[("/tmp/f.pdf", "old")], []⟩, []))
    ∧ (downloadFile "http://x/" ⟨[("/tmp/f.pdf", "old")], []⟩ "media/g.pdf" "/tmp/g.pdf" false
        (fun _ => ⟨200, some "text/html; charset=utf-8", "<html>"⟩) =
      (.ok false, ⟨[("/tmp/f.pdf", "old")], []⟩, [.getC "http://x/media/g.pdf"])) :=
  ⟨(downloadFile_guards "http://x/" ⟨[("/tmp/f.pdf", "old")], []⟩ "media/f.pdf" "/tmp/f.pdf"
      (fun _ => ⟨200, some "application/pdf", "DATA"⟩)).1 (by decide) (by decide),
   (downloadFile_guards "http://x/" ⟨[("/tmp/f.pdf", "old")], []⟩ "media/g.pdf" "/tmp/g.pdf"
      (fun _ => ⟨200, some "text/html; charset=utf-8", "<html>"⟩)).2 false
      "text/html; charset=utf-8" (by decide) (by decide) (by decide) (by decide) (by decide)⟩

/-- C9: a status string outside the fixed vocabulary makes `_statusupdate`
raise `ValueError` with no transport call made (and, the exception
propagating, the cached mapping untouched); a status inside the vocabulary
POSTs to the `/{pk}/{status}` sub-endpoint and then reloads the object when
requested. -/
theorem statusupdate_vocab_guard (clsUrl : String) (t : Transport) (e : Entity)
    (status : String) (reload : Bool) (data? : Option Record) :
    (status ∉ statusVocab →
      statusUpdate clsUrl t e status reload data? =
        (.error (.valueError ("Order stats " ++ status ++ " not supported.")), []))
    ∧ (∀ n : Int, status ∈ statusVocab → pkProp e = .ok n →
      statusUpdate clsUrl t e status reload data? =
        (.ok (t.postR (clsUrl ++ "/" ++ toString n ++ "/" ++ status) (data?.getD []),
            if reload then reloadObject t.getR e else e),
          [.postC (clsUrl ++ "/" ++ toString n ++ "/" ++ status) (data?.getD [])]
            ++ (if reload then [.getC e.url] else []))) := by
  constructor
  · intro hs
    simp [statusUpdate, hs]
  · intro n hs hpk
    simp [statusUpdate, hs, hpk]

/-- Witness for C9: `"teleport"` raises with no calls made; `"complete"`
POSTs to `order/po/4/complete` and reloads. -/
theorem statusupdate_vocab_guard_witness :
    (statusUpdate "order/po"
        ⟨fun _ => some [("pk", Val.vint 4), ("state", Val.vstr "done")],
          fun _ _ => some [], fun _ _ => none, fun _ _ => none⟩
        ⟨"order/po/4/", [("pk", Val.vint 4)]⟩ "teleport" true none =
      (.error (.valueError "Order stats teleport not supported."), []))
    ∧ (statusUpdate "order/po"
        ⟨fun _ => some [("pk", Val.vint 4), ("state", Val.vstr "done")],
          fun _ _ => some [], fun _ _ => none, fun _ _ => none⟩
        ⟨"order/po/4/", [("pk", Val.vint 4)]⟩ "complete" true none =
      (.ok (some [], ⟨"order/po/4/", [("pk", Val.vint 4), ("state", Val.vstr "done")]⟩),
        [.postC "order/po/4/complete" [], .getC "order/po/4/"])) :=
  ⟨(statusupdate_vocab_guard "order/po"
      ⟨fun _ => some [("pk", Val.vint 4), ("state", Val.vstr "done")],
        fun _ _ => some [], fun _ _ => none, fun _ _ => none⟩
      ⟨"order/po/4/", [("pk", Val.vint 4)]⟩ "teleport" true none).1 (by decide),
   (statusupdate_vocab_guard "order/po"
      ⟨fun _ => some [("pk", Val.vint 4), ("state", Val.vstr "done")],
        fun _ _ => some [], fun _ _ => none, fun _ _ => none⟩
      ⟨"order/po/4/", [("pk", Val.vint 4)]⟩ "complete" true none).2 4 (by decide) (by decide)⟩
